import Mathlib

/-
Shallow embedding of the ChessSpace session-coordination server
(src/server/server.ts).  The server keeps a global table
`rooms : { [code]: { players, game, gameState } }` and installs seven
socket handlers: create_room, join_room, make_move, offer_draw,
draw_response, resign_game and disconnect.  Each handler is embedded as a
pure function from the room table (plus the handler's inputs and, where JS
uses Math.random(), an explicit random draw) to the new room table together
with the list of emitted events.

The board-legality engine (chess.js) is an external dependency whose source
is not part of this repository; it is modelled abstractly as an `Engine`
record exposing exactly the two operations server.ts calls: `game.turn()`
and `game.move(move)` (plus `new Chess()` as `init`).
-/

namespace ChessSpace

/-- player color, the TS union `'white' | 'black'` of server.ts. -/
inductive Color where
  | white
  | black
deriving DecidableEq

/-- the string a color is written as in event payloads. -/
def colorStr : Color → String
  | Color.white => "white"
  | Color.black => "black"

/-- result of chess.js `game.turn()`: the character `'w'` or `'b'`. -/
inductive Turn where
  | w
  | b
deriving DecidableEq

/-- JS string truthiness: `x || d` where `x` is a possibly-undefined string;
`undefined` and the empty string are falsy and yield the default. -/
def jsOrElse (o : Option String) (d : String) : String :=
  match o with
  | none => d
  | some s => if s = "" then d else s

/-- one entry of a room's `players` map: `{ color, name }`. -/
structure Player where
  color : Color
  name : String
deriving DecidableEq

/-- a move payload as sent by the client: origin square, destination square
and an optional promotion piece letter. -/
structure Move where
  from_ : String
  to_ : String
  promotion : Option String
deriving DecidableEq

/-- the board-legality engine at the interface boundary used by server.ts:
`new Chess()` (the initial position), `game.turn()` and `game.move(move)`
(chess.js mutates the game in place and returns a truthy move object on
success and null on failure; here `move` returns the successor position,
or none on failure). -/
structure Engine (P : Type) where
  init : P
  turn : P → Turn
  move : P → Move → Option P

/-- room lifecycle, the TS union `'waiting' | 'playing' | 'finished'`
(the spec's Waiting / Active / Finished). -/
inductive GameState where
  | waiting
  | playing
  | finished
deriving DecidableEq

/-- one room: `players` is a JS object keyed by socket id (socket ids are
non-numeric strings, so key enumeration order is insertion order, modelled
as an association list in insertion order), `game` the chess.js instance,
`gameState` the phase. -/
structure Room (P : Type) where
  players : List (String × Player)
  game : P
  gameState : GameState
deriving DecidableEq

/-- the global `rooms` table.  Its keys are the 4-digit decimal codes
produced by create_room; JS enumerates such array-index-like keys in
ascending numeric order, which for equal-length digit strings is exactly
lexicographic order, so the table is kept as an association list sorted by
key. -/
abbrev Rooms (P : Type) := List (String × Room P)

/-- association-list lookup, `obj[k]` (undefined when absent). -/
def lookupKey {α : Type} (k : String) : List (String × α) → Option α
  | [] => none
  | (k0, v) :: rest => if k = k0 then some v else lookupKey k rest

/-- lexicographic comparison of character lists by code point. -/
def charListLt : List Char → List Char → Bool
  | [], [] => false
  | [], _ :: _ => true
  | _ :: _, [] => false
  | c :: cs, d :: ds =>
    if c.toNat < d.toNat then true
    else if d.toNat < c.toNat then false
    else charListLt cs ds

/-- lexicographic string comparison; on the equal-length digit strings used
as room codes this coincides with numeric order. -/
def strLt (a b : String) : Bool := charListLt a.toList b.toList

/-- `obj[k] = v` on the sorted room table: overwrite in place when the key
exists, otherwise insert at the (ascending) position JS would enumerate it. -/
def alSet {α : Type} (k : String) (v : α) : List (String × α) → List (String × α)
  | [] => [(k, v)]
  | (k0, v0) :: rest =>
    if k = k0 then (k, v) :: rest
    else if strLt k k0 then (k, v) :: (k0, v0) :: rest
    else (k0, v0) :: alSet k v rest

/-- in-place mutation of the room stored under `rid` (JS mutates the room
object held in `rooms[rid]`). -/
def updateRoom {P : Type} (rid : String) (f : Room P → Room P) : Rooms P → Rooms P
  | [] => []
  | (k, room) :: rest =>
    if k = rid then (k, f room) :: rest else (k, room) :: updateRoom rid f rest

/-- `delete obj[k]` (keys are unique, so deleting the first hit suffices). -/
def removeKey {α : Type} (k : String) : List (String × α) → List (String × α)
  | [] => []
  | (k0, v) :: rest => if k0 = k then rest else (k0, v) :: removeKey k rest

/-- destination of an emission in server.ts: `socket.emit` goes to the
calling socket only; `socket.to(x).emit` goes to every member of socket.io
room `x` except the sender (when `x` is another socket's id, that is
exactly that socket); `io.to(x).emit` goes to every member of room `x`. -/
inductive Dest where
  | emitTo (sid : String)
  | toRoomExcept (roomName : String) (sender : String)
  | toRoom (roomName : String)
deriving DecidableEq

/-- the event messages server.ts emits, with their payload fields. -/
inductive Event where
  | room_created (room_code player_color status : String)
  | error (message : String)
  | room_joined (room_code player_color opponent status : String)
  | opponent_joined (opponent status : String)
  | chess_move (from_ to_ promotion player color : String)
  | draw_offered
  | draw_response (accepted : Bool)
  | game_ended (result reason : String)
  | opponent_resigned
  | player_disconnected (player color game_state : String)
deriving DecidableEq

/-- one emission: a destination paired with the event sent there. -/
abbrev Emit := Dest × Event

/-- server.ts lines 26-36, `socket.on('create_room')`.  The code draws
`Math.floor(1000 + Math.random() * 9000)` — a value in 1000..9999 — and
assigns `rooms[roomId]` unconditionally, with no check whether the code is
already live.  The random draw is the explicit parameter `r` (the drawn
code is `1000 + r % 9000`). -/
def create_room {P : Type} (E : Engine P) (sid playerName : String) (r : Nat)
    (rooms : Rooms P) : Rooms P × List Emit :=
  let roomId := toString (1000 + r % 9000)
  (alSet roomId
     { players := [(sid, { color := Color.white, name := playerName })],
       game := E.init,
       gameState := GameState.waiting } rooms,
   [(Dest.emitTo sid, Event.room_created roomId "white" "waiting")])

/-- server.ts lines 38-69, `socket.on('join_room')`.  Checks, in order:
room exists, room not full (`>= 2` players), caller not already a key of
this room's `players`; then adds the caller as black, sets
`gameState = 'playing'` (without inspecting the current value), and
notifies joiner and existing player.  `opponentId` is `playerIds[0]`,
computed from the keys captured before the insertion.  (With an empty
`players` map the source would throw on `room.players[undefined].name`
after having already mutated the room; that branch is unreachable because
rooms always hold their creator, and is rendered here as the mutation with
no emissions.) -/
def join_room {P : Type} (sid player_name room_id : String)
    (rooms : Rooms P) : Rooms P × List Emit :=
  match lookupKey room_id rooms with
  | none => (rooms, [(Dest.emitTo sid, Event.error "Room not found")])
  | some room =>
    if 2 ≤ room.players.length then
      (rooms, [(Dest.emitTo sid, Event.error "Room is full")])
    else
      let playerIds := room.players.map Prod.fst
      if sid ∈ playerIds then
        (rooms, [(Dest.emitTo sid, Event.error "You are already in this room")])
      else
        let rooms2 := updateRoom room_id
          (fun rm =>
            { rm with
              players := rm.players ++ [(sid, { color := Color.black, name := player_name })],
              gameState := GameState.playing }) rooms
        match room.players with
        | [] => (rooms2, [])
        | (_, opponent) :: _ =>
          (rooms2,
           [(Dest.emitTo sid, Event.room_joined room_id "black" opponent.name "playing"),
            (Dest.toRoomExcept room_id sid, Event.opponent_joined player_name "playing")])

/-- the linear scan `for (const [id, room] of Object.entries(rooms))`
breaking at the first room whose `players` contains the socket, shared by
make_move, offer_draw, draw_response and resign_game. -/
def findRoom {P : Type} (sid : String) : Rooms P → Option (String × Room P)
  | [] => none
  | (rid, room) :: rest =>
    if (lookupKey sid room.players).isSome then some (rid, room)
    else findRoom sid rest

/-- `playerIds.find(id => id !== socket.id)`: the first key differing
from the caller's socket id. -/
def firstOther (sid : String) : List String → Option String
  | [] => none
  | k :: rest => if k ≠ sid then some k else firstOther sid rest

/-- server.ts lines 71-107, `socket.on('make_move')`.  After locating the
caller's room, the handler compares the caller's assigned color with the
side to move computed from the authoritative game
(`game.turn() === 'w' ? 'white' : 'black'`); on mismatch it emits
"Not your turn" to the caller and calls nothing else.  On match it calls
`game.move(move)`: success broadcasts `chess_move` to the whole room with
`promotion: move.promotion || 'q'`, failure emits "Invalid move" to the
caller.  (The inner `none` branch mirrors the falsy `player && ...` guard
falling through to "Not your turn"; it is unreachable because findRoom
only returns rooms containing the caller.) -/
def make_move {P : Type} (E : Engine P) (sid : String) (mv : Move)
    (rooms : Rooms P) : Rooms P × List Emit :=
  match findRoom sid rooms with
  | none => (rooms, [(Dest.emitTo sid, Event.error "Not in a game")])
  | some (roomId, playerRoom) =>
    match lookupKey sid playerRoom.players with
    | none => (rooms, [(Dest.emitTo sid, Event.error "Not your turn")])
    | some player =>
      if player.color =
          (if E.turn playerRoom.game = Turn.w then Color.white else Color.black) then
        match E.move playerRoom.game mv with
        | some g2 =>
          (updateRoom roomId (fun rm => { rm with game := g2 }) rooms,
           [(Dest.toRoom roomId,
             Event.chess_move mv.from_ mv.to_ (jsOrElse mv.promotion "q")
               player.name (colorStr player.color))])
        | none => (rooms, [(Dest.emitTo sid, Event.error "Invalid move")])
      else
        (rooms, [(Dest.emitTo sid, Event.error "Not your turn")])

/-- server.ts lines 109-135, `socket.on('offer_draw')`.  Relays
`draw_offered` to the opponent; records nothing in the room (the server
keeps no pending-draw state).  Silently returns when the caller is in no
room or has no opponent. -/
def offer_draw {P : Type} (sid : String) (rooms : Rooms P) : Rooms P × List Emit :=
  match findRoom sid rooms with
  | none => (rooms, [])
  | some (_, playerRoom) =>
    match firstOther sid (playerRoom.players.map Prod.fst) with
    | none => (rooms, [])
    | some opponentId =>
      (rooms, [(Dest.toRoomExcept opponentId sid, Event.draw_offered)])

/-- server.ts lines 137-171, `socket.on('draw_response')`.  Relays the
response to the opponent; when `accepted`, sets `gameState = 'finished'`
and broadcasts `game_ended` to the room.  No pending-offer check of any
kind: the handler fires whenever the caller is in a room with an opponent. -/
def draw_response {P : Type} (sid : String) (accepted : Bool)
    (rooms : Rooms P) : Rooms P × List Emit :=
  match findRoom sid rooms with
  | none => (rooms, [])
  | some (roomId, playerRoom) =>
    match firstOther sid (playerRoom.players.map Prod.fst) with
    | none => (rooms, [])
    | some opponentId =>
      if accepted then
        (updateRoom roomId (fun rm => { rm with gameState := GameState.finished }) rooms,
         [(Dest.toRoomExcept opponentId sid, Event.draw_response accepted),
          (Dest.toRoom roomId, Event.game_ended "draw" "Draw by agreement")])
      else
        (rooms, [(Dest.toRoomExcept opponentId sid, Event.draw_response accepted)])

/-- server.ts lines 173-200, `socket.on('resign_game')`: notifies the
opponent and sets `gameState = 'finished'`; silently ignored when the
caller is in no room or has no opponent. -/
def resign_game {P : Type} (sid : String) (rooms : Rooms P) : Rooms P × List Emit :=
  match findRoom sid rooms with
  | none => (rooms, [])
  | some (roomId, playerRoom) =>
    match firstOther sid (playerRoom.players.map Prod.fst) with
    | none => (rooms, [])
    | some opponentId =>
      (updateRoom roomId (fun rm => { rm with gameState := GameState.finished }) rooms,
       [(Dest.toRoomExcept opponentId sid, Event.opponent_resigned)])

/-- server.ts lines 202-221, `socket.on('disconnect')`.  The loop removes
the socket from the first room containing it and then builds the
notification payload from `room.players[socket.id]?.name || 'Unknown'` and
`...?.color || 'unknown'` — lookups performed AFTER
`delete room.players[socket.id]`, so they miss and fall back to
`'Unknown'` / `'unknown'`.  The payload's `game_state: 'finished'` is a
string literal; the room's own `gameState` field is not written.  An
emptied room is deleted. -/
def disconnect {P : Type} (sid : String) : Rooms P → Rooms P × List Emit
  | [] => ([], [])
  | (roomId, room) :: rest =>
    if (lookupKey sid room.players).isSome then
      let players2 := removeKey sid room.players
      let ev : Emit :=
        (Dest.toRoomExcept roomId sid,
         Event.player_disconnected
           (jsOrElse ((lookupKey sid players2).map Player.name) "Unknown")
           (jsOrElse ((lookupKey sid players2).map (fun p => colorStr p.color)) "unknown")
           "finished")
      if players2.length = 0 then (rest, [ev])
      else ((roomId, { room with players := players2 }) :: rest, [ev])
    else
      let r2 := disconnect sid rest
      ((roomId, room) :: r2.1, r2.2)

/-- Modelled from the spec: the board-legality engine (chess.js) is an
external collaborator whose source is not part of this repository; §6
fixes its move-encoding contract: "optional promotion piece letter
defaulting to queen when a pawn reaches the last rank and no promotion
piece is supplied".  An engine honours that contract when a move carrying
no promotion piece is processed exactly as the same move promoting to
queen — in particular a pawn reaching the last rank becomes a queen in the
resulting position. -/
def Engine.queenDefault {P : Type} (E : Engine P) : Prop :=
  ∀ (p : P) (m : Move), m.promotion = none →
    E.move p m = E.move p { m with promotion := some "q" }

/-- a small concrete engine used to exercise the handlers on closed inputs:
positions are move counters, white moves on even counts, every move is
accepted. -/
def toyEngine : Engine Nat :=
  { init := 0,
    turn := fun p => if p % 2 = 0 then Turn.w else Turn.b,
    move := fun p _ => some (p + 1) }

/-- a concrete engine that records the (queen-defaulted) promotion letter of
the last accepted move in the position, honouring the spec's queen-default
contract. -/
def promoEngine : Engine Nat :=
  { init := 0,
    turn := fun p => if p % 2 = 0 then Turn.w else Turn.b,
    move := fun p m => some (10 * p + (if jsOrElse m.promotion "q" = "q" then 1 else 2)) }

/-- the room table after `create_room` by sockA ("Alice", draw 0, code
"1000") followed by `join_room` by sockB ("Bob"): one live two-player room
in state playing, with no draw ever offered. -/
def twoPlayerTable : Rooms Nat :=
  (join_room "sockB" "Bob" "1000" (create_room toyEngine "sockA" "Alice" 0 []).1).1

/-- the room "1000" of `twoPlayerTable`, written out. -/
def aliceBobRoom : Room Nat :=
  { players := [("sockA", { color := Color.white, name := "Alice" }),
                ("sockB", { color := Color.black, name := "Bob" })],
    game := 0,
    gameState := GameState.playing }

/-- the two-player table is exactly one room, "1000", holding Alice (white,
creator) and Bob (black, joiner) in state playing. -/
lemma twoPlayerTable_eq : twoPlayerTable = [("1000", aliceBobRoom)] := by decide

/-- the table holding only the freshly created room "1000" of Alice. -/
def waitingTable : Rooms Nat :=
  (create_room toyEngine "sockA" "Alice" 0 []).1

/-- twoPlayerTable after Alice resigns: room "1000" is finished. -/
def chainResigned : Rooms Nat :=
  (resign_game "sockA" twoPlayerTable).1

/-- chainResigned after Alice disconnects: Bob alone in the finished room. -/
def chainAfterLeave : Rooms Nat :=
  (disconnect "sockA" chainResigned).1

/-- chainAfterLeave after Carol joins the finished room's code. -/
def chainRejoined : Rooms Nat :=
  (join_room "sockC" "Carol" "1000" chainAfterLeave).1

/-- the table after the same socket creates two rooms ("1000" then, with
draw 1000, "2000"). -/
def dualRoomTable : Rooms Nat :=
  (create_room toyEngine "sockA" "Anna" 1000 (create_room toyEngine "sockA" "Alice" 0 []).1).1

/-- looking up the key just mutated sees the mutation, other state untouched. -/
lemma lookupKey_updateRoom {P : Type} (rid : String) (f : Room P → Room P) (rs : Rooms P) :
    lookupKey rid (updateRoom rid f rs) = (lookupKey rid rs).map f := by
  induction rs with
  | nil => rfl
  | cons hd tl ih =>
    obtain ⟨k, room⟩ := hd
    by_cases h : k = rid
    · subst h
      simp [updateRoom, lookupKey]
    · have h2 : ¬ rid = k := fun hx => h hx.symm
      simp [updateRoom, lookupKey, h, h2, ih]

/-- join_room on a full room: rejected with "Room is full", no mutation,
only the caller addressed. -/
lemma join_room_full {P : Type} (rs : Rooms P) (sid nm rid : String) (room : Room P)
    (hLook : lookupKey rid rs = some room)
    (hFull : 2 ≤ room.players.length) :
    join_room sid nm rid rs = (rs, [(Dest.emitTo sid, Event.error "Room is full")]) := by
  simp [join_room, hLook, hFull]

/-- promoEngine honours the spec-modelled queen-default contract. -/
lemma promoEngine_queenDefault : promoEngine.queenDefault := by
  intro p m h
  simp [promoEngine, Engine.queenDefault, jsOrElse, h]

/-- C1: the claim says the player_disconnected payload carries the
disconnecting player's pre-disconnect displayName and color.  The code
builds the payload after `delete room.players[socket.id]`, so when Alice
(pre-disconnect metadata: name "Alice", color white) leaves the two-player
room, the remaining player is notified with player "Unknown" and color
"unknown" instead. -/
theorem c1_disconnect_payload :
    (disconnect "sockA" twoPlayerTable).2 =
      [(Dest.toRoomExcept "1000" "sockA",
        Event.player_disconnected "Unknown" "unknown" "finished")] ∧
    (lookupKey "1000" twoPlayerTable).bind (fun rm => lookupKey "sockA" rm.players) =
      some { color := Color.white, name := "Alice" } := by
  decide

/-- C2: the claim says a CreateRoom whose drawn code collides with a live
room redraws and never destroys an existing live room.  The code assigns
`rooms[roomId]` unconditionally: when Carol's draw hits the live playing
room "1000", that room is replaced by a fresh waiting room holding only
Carol, destroying the live game. -/
theorem c2_create_overwrites :
    (create_room toyEngine "sockC" "Carol" 0 twoPlayerTable).1 =
      [("1000",
        { players := [("sockC", { color := Color.white, name := "Carol" })],
          game := 0,
          gameState := GameState.waiting })] ∧
    (lookupKey "1000" twoPlayerTable).map Room.gameState = some GameState.playing := by
  decide

/-- C3: a MakeMove from a room member whose assigned color differs from the
side to move computed from the authoritative position is rejected with
"Not your turn", addressed only to the mover, with the whole room table
unchanged; the conclusion holds for every engine with that turn reading, so
the engine's move function is never consulted. -/
theorem c3_not_your_turn {P : Type} (E : Engine P) (rs : Rooms P) (sid : String) (mv : Move)
    (roomId : String) (playerRoom : Room P) (player : Player)
    (hFind : findRoom sid rs = some (roomId, playerRoom))
    (hPl : lookupKey sid playerRoom.players = some player)
    (hTurn : player.color ≠
      (if E.turn playerRoom.game = Turn.w then Color.white else Color.black)) :
    make_move E sid mv rs = (rs, [(Dest.emitTo sid, Event.error "Not your turn")]) := by
  simp [make_move, hFind, hPl, hTurn]

/-- C3 witness: in the two-player room at the initial position it is
white's turn, so Bob's (black) move attempt is rejected. -/
theorem c3_witness :
    make_move toyEngine "sockB" { from_ := "e7", to_ := "e5", promotion := none }
      twoPlayerTable =
      (twoPlayerTable, [(Dest.emitTo "sockB", Event.error "Not your turn")]) :=
  c3_not_your_turn toyEngine twoPlayerTable "sockB"
    { from_ := "e7", to_ := "e5", promotion := none } "1000" aliceBobRoom
    { color := Color.black, name := "Bob" } (by decide) (by decide) (by decide)

/-- C4 counterexample: twoPlayerTable is built by create_room and join_room
only — no draw was ever offered — yet Alice's draw_response(accepted=true)
sets the room's phase to finished and emits events, refuting "silently
ignored: changes no room state and emits no events". -/
theorem c4_counterexample :
    (lookupKey "1000" (draw_response "sockA" true twoPlayerTable).1).map Room.gameState =
      some GameState.finished ∧
    (draw_response "sockA" true twoPlayerTable).2 ≠ [] := by
  decide

/-- C4 as amended: the server tracks no pendingDraw at all; a
RespondDraw(accept=true) from a member of a room that has an opponent
always relays draw_response to the opponent, sets the room's phase to
finished and broadcasts game_ended — whether or not any draw was offered. -/
theorem c4_draw_accept_effect {P : Type} (rs : Rooms P) (sid roomId opponentId : String)
    (playerRoom : Room P)
    (hFind : findRoom sid rs = some (roomId, playerRoom))
    (hOpp : firstOther sid (playerRoom.players.map Prod.fst) = some opponentId) :
    draw_response sid true rs =
      (updateRoom roomId (fun rm => { rm with gameState := GameState.finished }) rs,
       [(Dest.toRoomExcept opponentId sid, Event.draw_response true),
        (Dest.toRoom roomId, Event.game_ended "draw" "Draw by agreement")]) := by
  simp [draw_response, hFind, hOpp]

/-- C4 witness: Alice accepting in the offer-free two-player room. -/
theorem c4_witness :
    draw_response "sockA" true twoPlayerTable =
      (updateRoom "1000" (fun rm => { rm with gameState := GameState.finished })
        twoPlayerTable,
       [(Dest.toRoomExcept "sockB" "sockA", Event.draw_response true),
        (Dest.toRoom "1000", Event.game_ended "draw" "Draw by agreement")]) :=
  c4_draw_accept_effect twoPlayerTable "sockA" "1000" "sockB" aliceBobRoom
    (by decide) (by decide)

/-- C5 counterexample: create, join, resign, disconnect leaves room "1000"
finished with one player; Carol's subsequent join takes it back to playing,
refuting phase monotonicity. -/
theorem c5_counterexample :
    (lookupKey "1000" chainAfterLeave).map Room.gameState = some GameState.finished ∧
    (lookupKey "1000" chainRejoined).map Room.gameState = some GameState.playing := by
  decide

/-- C5 as amended: join_room never inspects the phase — a JoinRoom by a
non-member on a room with exactly one remaining player sets the phase to
playing even when the room is finished, so a Finished room re-enters
Active. -/
theorem c5_join_reactivates {P : Type} (rs : Rooms P) (sid nm rid : String) (room : Room P)
    (hLook : lookupKey rid rs = some room)
    (hOne : room.players.length = 1)
    (hNotMem : sid ∉ room.players.map Prod.fst)
    (_hFin : room.gameState = GameState.finished) :
    (lookupKey rid (join_room sid nm rid rs).1).map Room.gameState =
      some GameState.playing := by
  have hFull : ¬ 2 ≤ room.players.length := by omega
  obtain ⟨p, hps⟩ : ∃ p, room.players = [p] := List.length_eq_one.mp hOne
  simp only [join_room, hLook]
  rw [if_neg hFull, if_neg hNotMem, hps]
  simp [lookupKey_updateRoom, hLook]

/-- C5 witness: the concrete finished one-player room of the chain. -/
theorem c5_witness :
    (lookupKey "1000" (join_room "sockC" "Carol" "1000" chainAfterLeave).1).map
        Room.gameState = some GameState.playing :=
  c5_join_reactivates chainAfterLeave "sockC" "Carol" "1000"
    { players := [("sockB", { color := Color.black, name := "Bob" })],
      game := 0,
      gameState := GameState.finished }
    (by decide) (by decide) (by decide) (by decide)

/-- C6: when Alice disconnects from the two-player playing room, the
remaining player is notified (with the payload's literal game_state
"finished"), but the room's own phase is left at playing: the code never
writes `room.gameState` in the disconnect handler. -/
theorem c6_phase_not_finished :
    (lookupKey "1000" (disconnect "sockA" twoPlayerTable).1).map Room.gameState =
      some GameState.playing ∧
    (disconnect "sockA" twoPlayerTable).2 =
      [(Dest.toRoomExcept "1000" "sockA",
        Event.player_disconnected "Unknown" "unknown" "finished")] := by
  decide

/-- C7 counterexample: the same socket creates room "1000" and then room
"2000" and is simultaneously a member of both — create_room performs no
cross-room membership check. -/
theorem c7_counterexample :
    ((lookupKey "1000" dualRoomTable).map fun rm =>
      (lookupKey "sockA" rm.players).isSome) = some true ∧
    ((lookupKey "2000" dualRoomTable).map fun rm =>
      (lookupKey "sockA" rm.players).isSome) = some true := by
  decide

/-- C7 as amended: membership is only guarded per room — a JoinRoom by a
connection already among the target room's players mutates nothing and is
always rejected, with "Room is full" when the room already has 2 players
and "You are already in this room" otherwise; nothing prevents the same
connection from being a member of other rooms. -/
theorem c7_per_room_membership {P : Type} (rs : Rooms P) (sid nm rid : String) (room : Room P)
    (hLook : lookupKey rid rs = some room)
    (hMem : sid ∈ room.players.map Prod.fst) :
    join_room sid nm rid rs =
      (rs, [(Dest.emitTo sid,
        Event.error (if 2 ≤ room.players.length then "Room is full"
          else "You are already in this room"))]) := by
  by_cases hFull : 2 ≤ room.players.length
  · rw [if_pos hFull]
    exact join_room_full rs sid nm rid room hLook hFull
  · rw [if_neg hFull]
    simp [join_room, hLook, hFull, hMem]

/-- C7 witness: Alice rejoining her own freshly created waiting room. -/
theorem c7_witness :
    join_room "sockA" "Alice" "1000" waitingTable =
      (waitingTable, [(Dest.emitTo "sockA", Event.error "You are already in this room")]) :=
  c7_per_room_membership waitingTable "sockA" "Alice" "1000"
    { players := [("sockA", { color := Color.white, name := "Alice" })],
      game := 0,
      gameState := GameState.waiting }
    (by decide) (by decide)

/-- C8: a JoinRoom on a room that already has 2 players yields
"Room is full", the entire room table is returned unchanged, and the only
emission is addressed to the joining connection. -/
theorem c8_room_full {P : Type} (rs : Rooms P) (sid nm rid : String) (room : Room P)
    (hLook : lookupKey rid rs = some room)
    (hFull : 2 ≤ room.players.length) :
    join_room sid nm rid rs = (rs, [(Dest.emitTo sid, Event.error "Room is full")]) :=
  join_room_full rs sid nm rid room hLook hFull

/-- C8 witness: Carol attempting to join the full room "1000". -/
theorem c8_witness :
    join_room "sockC" "Carol" "1000" twoPlayerTable =
      (twoPlayerTable, [(Dest.emitTo "sockC", Event.error "Room is full")]) :=
  c8_room_full twoPlayerTable "sockC" "Carol" "1000" aliceBobRoom (by decide) (by decide)

/-- C9: for every engine honouring the spec-modelled queen-default
contract, an accepted MakeMove carrying no promotion piece broadcasts
chess_move with promotion "q" to the whole room, and the resulting
authoritative position is exactly the one produced by the same move
promoting to queen (the pawn reaching the last rank becomes a queen). -/
theorem c9_promotion_default {P : Type} (E : Engine P) (rs : Rooms P) (sid : String)
    (mv : Move) (roomId : String) (playerRoom : Room P) (player : Player) (g2 : P)
    (hQD : E.queenDefault)
    (hFind : findRoom sid rs = some (roomId, playerRoom))
    (hPl : lookupKey sid playerRoom.players = some player)
    (hTurn : player.color =
      (if E.turn playerRoom.game = Turn.w then Color.white else Color.black))
    (hNone : mv.promotion = none)
    (hMove : E.move playerRoom.game mv = some g2) :
    make_move E sid mv rs =
      (updateRoom roomId (fun rm => { rm with game := g2 }) rs,
       [(Dest.toRoom roomId,
         Event.chess_move mv.from_ mv.to_ "q" player.name (colorStr player.color))]) ∧
    E.move playerRoom.game { mv with promotion := some "q" } = some g2 := by
  constructor
  · simp [make_move, hFind, hPl, hTurn, hMove, jsOrElse, hNone]
  · rw [← hQD playerRoom.game mv hNone]
    exact hMove

/-- C9 witness: Alice's promotion-less move in the two-player room under
the queen-defaulting promoEngine. -/
theorem c9_witness :
    make_move promoEngine "sockA" { from_ := "e7", to_ := "e8", promotion := none }
      twoPlayerTable =
      (updateRoom "1000" (fun rm => { rm with game := 1 }) twoPlayerTable,
       [(Dest.toRoom "1000", Event.chess_move "e7" "e8" "q" "Alice" "white")]) ∧
    promoEngine.move 0 { from_ := "e7", to_ := "e8", promotion := some "q" } = some 1 :=
  c9_promotion_default promoEngine twoPlayerTable "sockA"
    { from_ := "e7", to_ := "e8", promotion := none } "1000" aliceBobRoom
    { color := Color.white, name := "Alice" } 1 promoEngine_queenDefault
    (by decide) (by decide) (by decide) rfl (by decide)

/-- C10: the fullness check precedes the membership check — a caller who is
one of the 2 members of a full room gets "Room is full", and the
"You are already in this room" rejection can only arise when the room has
exactly 1 player. -/
theorem c10_full_before_member {P : Type} (rs : Rooms P) (sid nm rid : String) (room : Room P)
    (hLook : lookupKey rid rs = some room)
    (hMem : sid ∈ room.players.map Prod.fst) :
    (2 ≤ room.players.length →
      join_room sid nm rid rs = (rs, [(Dest.emitTo sid, Event.error "Room is full")])) ∧
    (join_room sid nm rid rs =
        (rs, [(Dest.emitTo sid, Event.error "You are already in this room")]) →
      room.players.length = 1) := by
  constructor
  · intro hFull
    exact join_room_full rs sid nm rid room hLook hFull
  · intro hEq
    by_cases hFull : 2 ≤ room.players.length
    · rw [join_room_full rs sid nm rid room hLook hFull] at hEq
      have h2 := congrArg Prod.snd hEq
      simp at h2
    · have h0 : room.players ≠ [] := by
        intro h
        rw [h] at hMem
        simp at hMem
      have h1 : 0 < room.players.length := List.length_pos.mpr h0
      omega

/-- C10 witness: Alice, already a member of the full room "1000", tries to
join it again and gets "Room is full". -/
theorem c10_witness :
    join_room "sockA" "Again" "1000" twoPlayerTable =
      (twoPlayerTable, [(Dest.emitTo "sockA", Event.error "Room is full")]) :=
  (c10_full_before_member twoPlayerTable "sockA" "Again" "1000" aliceBobRoom
    (by decide) (by decide)).1 (by decide)

end ChessSpace
